import Mathlib

/-!
Shallow embedding of the StreamPy `server_logs.py` collections
(`RecentlyWatched`, `CommentStore`) and of `media_player.py`'s `Series.play`,
together with proofs of the specified properties.

Python values relevant to the verified API calls (strings, ints, `None`)
are modelled by `PyVal`; Python exceptions raised by the code under study
(`ValueError`, `TypeError`) are modelled by `PyError`.  Fallible mutating
methods are embedded as functions `State → Args → State × Except PyError α`,
so that "the state is unchanged when the call raises" is a provable
statement rather than a typing artefact.
-/

/-- Python argument values that the verified entry points ever receive:
a `str`, an `int`, or `None`. -/
inductive PyVal where
  | str (s : String)
  | int (n : Int)
  | none
deriving DecidableEq

/-- Python exceptions raised by the embedded code: `ValueError` or
`TypeError`, each carrying its message.  The spec groups both under
`InvalidArgument`. -/
inductive PyError where
  | valueError (msg : String)
  | typeError (msg : String)
deriving DecidableEq

/-- Characters stripped by Python's `str.strip()` (ASCII whitespace). -/
def isPyWhitespace (c : Char) : Bool :=
  c = ' ' || c = '\t' || c = '\n' || c = '\r' || c = '\x0b' || c = '\x0c'

/-- Embeds the Python test `not s.strip()`: `true` iff `s` is empty or
consists solely of whitespace. -/
def strBlank (s : String) : Bool :=
  s.toList.all isPyWhitespace

/-- One `append` on a CPython `deque(maxlen := m)`: the new element goes to
the right; if the deque was full the leftmost elements beyond the bound are
discarded. -/
def dequeAppend (maxlen : Nat) (xs : List String) (x : String) : List String :=
  if xs.length < maxlen then xs ++ [x]
  else (xs ++ [x]).drop (xs.length + 1 - maxlen)

/-- The last `n` elements of `xs` (all of `xs` when `xs` is shorter). -/
def lastN (n : Nat) (xs : List String) : List String :=
  xs.drop (xs.length - n)

/-- State of a `RecentlyWatched` object: the validated capacity
(`max_items`) and the deque contents, oldest first. -/
structure RecentlyWatched where
  max_items : Nat
  history : List String
deriving DecidableEq

/-- `RecentlyWatched.__init__(max_items)`: raises `ValueError` when
`max_items <= 0`, otherwise yields an empty deque bounded by `max_items`. -/
def RecentlyWatched.new (max_items : Int) : Except PyError RecentlyWatched :=
  if max_items ≤ 0 then
    .error (.valueError "max_items must be greater than zero.")
  else
    .ok ⟨max_items.toNat, []⟩

/-- `RecentlyWatched.add(video_title)`: `TypeError` when the argument is not
a string, `ValueError` when it is blank after stripping; otherwise appends
to the bounded deque.  The returned state is the object's state when the
call returns or raises. -/
def RecentlyWatched.add (rw : RecentlyWatched) (video_title : PyVal) :
    RecentlyWatched × Except PyError Unit :=
  match video_title with
  | .str s =>
    if strBlank s then
      (rw, .error (.valueError "video_title cannot be empty."))
    else
      ({ rw with history := dequeAppend rw.max_items rw.history s }, .ok ())
  | _ => (rw, .error (.typeError "video_title must be a string."))

/-- `RecentlyWatched.get_history()`: returns `list(self.history)`, a
snapshot of the deque contents, oldest first. -/
def RecentlyWatched.get_history (rw : RecentlyWatched) :
    RecentlyWatched × List String :=
  (rw, rw.history)

/-- Runs `add` on each item of a list in order, stopping at the first
raised exception (Python exception propagation). -/
def RecentlyWatched.addAll (rw : RecentlyWatched) :
    List String → RecentlyWatched × Except PyError Unit
  | [] => (rw, .ok ())
  | s :: rest =>
    match rw.add (.str s) with
    | (rw', .ok _) => rw'.addAll rest
    | (rw', .error e) => (rw', .error e)

/-- The operations callable on a `RecentlyWatched` object. -/
inductive RWOp where
  | add (v : PyVal)
  | history

/-- State transition of one `RecentlyWatched` operation: the object's state
after the call, whether or not it raised. -/
def RWstep (rw : RecentlyWatched) : RWOp → RecentlyWatched
  | .add v => (rw.add v).1
  | .history => rw.get_history.1

/-- State after running a sequence of operations on a `RecentlyWatched`. -/
def RWrun (rw : RecentlyWatched) (ops : List RWOp) : RecentlyWatched :=
  ops.foldl RWstep rw

/-- An association-list lookup, embedding `dict.get` key search with `==`
semantics on `str` keys. -/
def lookupGroup (m : List (String × List String)) (k : String) :
    Option (List String) :=
  match m with
  | [] => Option.none
  | (k', v) :: rest => if k' = k then some v else lookupGroup rest k

/-- Embeds `self.comments[key].append(entry)` on a
`defaultdict(list)` whose iteration order is key-insertion order: appends
to the existing group, or creates the group `[entry]` at the end. -/
def appendGroup (m : List (String × List String)) (k : String) (e : String) :
    List (String × List String) :=
  match m with
  | [] => [(k, [e])]
  | (k', v) :: rest =>
    if k' = k then (k', v ++ [e]) :: rest else (k', v) :: appendGroup rest k e

/-- State of a `CommentStore`: the grouped comments, keys in first-insertion
order, each group's entries in insertion order. -/
structure CommentStore where
  comments : List (String × List String)
deriving DecidableEq

/-- `CommentStore.__init__()`: an empty `defaultdict(list)`. -/
def CommentStore.new : CommentStore := ⟨[]⟩

/-- `CommentStore.add_comment(video_id, comment)`: validates `video_id`
(string, non-blank) then `comment` (string, non-blank), in source order,
raising `TypeError`/`ValueError`; on success appends `comment` under
`video_id`, creating the group on first use. -/
def CommentStore.add_comment (cs : CommentStore) (video_id comment : PyVal) :
    CommentStore × Except PyError Unit :=
  match video_id with
  | .str k =>
    if strBlank k then
      (cs, .error (.valueError "video_id cannot be empty."))
    else
      match comment with
      | .str c =>
        if strBlank c then
          (cs, .error (.valueError "comment cannot be empty."))
        else
          (⟨appendGroup cs.comments k c⟩, .ok ())
      | _ => (cs, .error (.typeError "comment must be a string."))
  | _ => (cs, .error (.typeError "video_id must be a string."))

/-- `CommentStore.get_comments(video_id)`: `self.comments.get(video_id, [])`
(`dict.get` does not trigger the `defaultdict` factory). -/
def CommentStore.get_comments (cs : CommentStore) (video_id : String) :
    CommentStore × List String :=
  (cs, (lookupGroup cs.comments video_id).getD [])

/-- `CommentStore.all_comments()`: `dict(self.comments)`, a snapshot of all
groups in key-insertion order. -/
def CommentStore.all_comments (cs : CommentStore) :
    CommentStore × List (String × List String) :=
  (cs, cs.comments)

/-- The operations callable on a `CommentStore` object. -/
inductive CSOp where
  | add (video_id comment : PyVal)
  | get (video_id : String)
  | all

/-- State transition of one `CommentStore` operation: the object's state
after the call, whether or not it raised. -/
def CSstep (cs : CommentStore) : CSOp → CommentStore
  | .add v c => (cs.add_comment v c).1
  | .get v => (cs.get_comments v).1
  | .all => cs.all_comments.1

/-- State after running a sequence of operations from the empty store. -/
def CSrun (ops : List CSOp) : CommentStore :=
  ops.foldl CSstep CommentStore.new

/-- Whether an operation is an `add` whose key argument is the string `k`. -/
def addsKey (k : String) : CSOp → Bool
  | .add v _ => v = PyVal.str k
  | _ => false

/-- State of a `Series` object from `media_player.py`: validated id and
title, and the protected `_stream_key` (`None` until assigned). -/
structure Series where
  content_id : Int
  title : String
  stream_key : Option String
deriving DecidableEq

/-- Python's `"{:02d}".format(n)`: the decimal digits, left-padded with a
zero to width two. -/
def format02d (n : Int) : String :=
  let s := toString n
  if s.length < 2 then "0" ++ s else s

/-- `Series.play(episode)`: a non-`int` or non-positive episode prints an
invalid-episode message and returns; otherwise plays (or warns about a
missing stream key).  The result is the object's state after the call and
the printed lines; the method body contains no `raise`. -/
def Series.play (sr : Series) (episode : PyVal) :
    Series × Except PyError (List String) :=
  match episode with
  | .int e =>
    if e < 1 then
      (sr, .ok ["Invalid episode number for \x27" ++ sr.title ++ "\x27"])
    else
      match sr.stream_key with
      | Option.none =>
        (sr, .ok ["Cannot play \x27" ++ sr.title ++ "\x27: stream key not set"])
      | some _ =>
        (sr, .ok ["Resuming S01E" ++ format02d e ++ "..."])
  | _ => (sr, .ok ["Invalid episode number for \x27" ++ sr.title ++ "\x27"])

/-! ### Helper lemmas about `lastN` and `dequeAppend` -/

lemma lastN_of_le {n : Nat} {xs : List String} (h : xs.length ≤ n) :
    lastN n xs = xs := by
  unfold lastN
  rw [Nat.sub_eq_zero_of_le h, List.drop_zero]

lemma lastN_length (n : Nat) (xs : List String) :
    (lastN n xs).length = min xs.length n := by
  unfold lastN
  rw [List.length_drop]
  omega

lemma dequeAppend_eq_lastN {m : Nat} {xs : List String} (x : String)
    (h : xs.length ≤ m) :
    dequeAppend m xs x = lastN m (xs ++ [x]) := by
  unfold dequeAppend lastN
  split
  · rw [List.length_append, List.length_singleton,
      Nat.sub_eq_zero_of_le (by omega), List.drop_zero]
  · rw [List.length_append, List.length_singleton]

lemma lastN_append_left (n : Nat) (xs ys : List String) :
    lastN n (lastN n xs ++ ys) = lastN n (xs ++ ys) := by
  unfold lastN
  rw [← List.drop_append_of_le_length (Nat.sub_le xs.length n), List.drop_drop]
  congr 1
  simp only [List.length_drop, List.length_append]
  omega

lemma dequeAppend_length_le {m : Nat} {xs : List String} (x : String)
    (h : xs.length ≤ m) :
    (dequeAppend m xs x).length ≤ m := by
  rw [dequeAppend_eq_lastN x h, lastN_length]
  omega

lemma dequeAppend_full {m : Nat} {xs : List String} (x : String)
    (hm : 0 < m) (h : xs.length = m) :
    dequeAppend m xs x = xs.tail ++ [x] := by
  unfold dequeAppend
  rw [if_neg (by omega), h, Nat.add_sub_cancel_left,
    List.drop_append_of_le_length (by omega), List.drop_one]

lemma dequeAppend_not_full {m : Nat} {xs : List String} (x : String)
    (h : xs.length < m) :
    dequeAppend m xs x = xs ++ [x] := by
  unfold dequeAppend
  rw [if_pos h]

/-- A successful chain of `add`s: no call raises, and the deque ends up
holding the last `max_items` elements of everything ever appended. -/
lemma addAll_ok (items : List String) :
    ∀ rw : RecentlyWatched, rw.history.length ≤ rw.max_items →
      (∀ s ∈ items, strBlank s = false) →
      rw.addAll items =
        (⟨rw.max_items, lastN rw.max_items (rw.history ++ items)⟩, .ok ()) := by
  induction items with
  | nil =>
    intro rw hlen _
    simp only [RecentlyWatched.addAll, List.append_nil, lastN_of_le hlen]
  | cons s rest ih =>
    intro rw hlen hv
    have hs : strBlank s = false := hv s (by simp)
    have hrest : ∀ t ∈ rest, strBlank t = false := fun t ht => hv t (by simp [ht])
    simp only [RecentlyWatched.addAll, RecentlyWatched.add, hs, Bool.false_eq_true,
      if_false]
    rw [ih ⟨rw.max_items, dequeAppend rw.max_items rw.history s⟩
      (dequeAppend_length_le s hlen) hrest]
    have hq : lastN rw.max_items (dequeAppend rw.max_items rw.history s ++ rest)
        = lastN rw.max_items (rw.history ++ s :: rest) := by
      rw [dequeAppend_eq_lastN s hlen, lastN_append_left,
        List.append_assoc, List.singleton_append]
    rw [hq]

/-! ### Helper lemmas about the recency buffer's step semantics -/

lemma RWstep_preserves {rw : RecentlyWatched} (op : RWOp)
    (h : rw.history.length ≤ rw.max_items) :
    (RWstep rw op).max_items = rw.max_items ∧
    (RWstep rw op).history.length ≤ rw.max_items := by
  cases op with
  | add v =>
    cases v with
    | str s =>
      by_cases hs : strBlank s
      · simp [RWstep, RecentlyWatched.add, hs, h]
      · simp [RWstep, RecentlyWatched.add, hs, dequeAppend_length_le s h]
    | int n => simp [RWstep, RecentlyWatched.add, h]
    | none => simp [RWstep, RecentlyWatched.add, h]
  | history => simp [RWstep, RecentlyWatched.get_history, h]

lemma RWrun_preserves (ops : List RWOp) : ∀ rw : RecentlyWatched,
    rw.history.length ≤ rw.max_items →
    (RWrun rw ops).max_items = rw.max_items ∧
    (RWrun rw ops).history.length ≤ rw.max_items := by
  induction ops with
  | nil => intro rw h; exact ⟨rfl, h⟩
  | cons op rest ih =>
    intro rw h
    have hstep := RWstep_preserves op h
    have htail := ih (RWstep rw op) (hstep.1 ▸ hstep.2)
    exact ⟨by simpa [RWrun, hstep.1] using htail.1.trans hstep.1,
      by simpa [RWrun, hstep.1] using htail.2⟩

/-! ### Helper lemmas about grouped comments -/

lemma lookupGroup_appendGroup_self (m : List (String × List String))
    (k e : String) :
    lookupGroup (appendGroup m k e) k
      = some ((lookupGroup m k).getD [] ++ [e]) := by
  induction m with
  | nil => simp [appendGroup, lookupGroup]
  | cons p rest ih =>
    obtain ⟨k', v⟩ := p
    by_cases h : k' = k
    · subst h
      simp [appendGroup, lookupGroup]
    · simp [appendGroup, lookupGroup, h, ih]

lemma lookupGroup_appendGroup_ne {k' k : String} (h : k' ≠ k)
    (m : List (String × List String)) (e : String) :
    lookupGroup (appendGroup m k' e) k = lookupGroup m k := by
  induction m with
  | nil => simp [appendGroup, lookupGroup, h]
  | cons p rest ih =>
    obtain ⟨k'', v⟩ := p
    by_cases h2 : k'' = k'
    · subst h2
      simp [appendGroup, lookupGroup, h]
    · by_cases h3 : k'' = k
      · subst h3
        simp [appendGroup, lookupGroup, h2]
      · simp [appendGroup, lookupGroup, h2, h3, ih]

lemma CSstep_absent {k : String} {cs : CommentStore} {op : CSOp}
    (hop : addsKey k op = false) :
    lookupGroup (CSstep cs op).comments k = lookupGroup cs.comments k := by
  cases op with
  | add v c =>
    cases v with
    | str k' =>
      have hne : k' ≠ k := by
        intro h
        subst h
        simp [addsKey] at hop
      by_cases hk : strBlank k'
      · simp [CSstep, CommentStore.add_comment, hk]
      · cases c with
        | str cc =>
          by_cases hc : strBlank cc
          · simp [CSstep, CommentStore.add_comment, hk, hc]
          · simp [CSstep, CommentStore.add_comment, hk, hc,
              lookupGroup_appendGroup_ne hne]
        | int n => simp [CSstep, CommentStore.add_comment, hk]
        | none => simp [CSstep, CommentStore.add_comment, hk]
    | int n => simp [CSstep, CommentStore.add_comment]
    | none => simp [CSstep, CommentStore.add_comment]
  | get v => simp [CSstep, CommentStore.get_comments]
  | all => simp [CSstep, CommentStore.all_comments]

lemma CSfoldl_absent (ops : List CSOp) : ∀ (k : String) (cs : CommentStore),
    (∀ op ∈ ops, addsKey k op = false) →
    lookupGroup cs.comments k = Option.none →
    lookupGroup (ops.foldl CSstep cs).comments k = Option.none := by
  induction ops with
  | nil =>
    intro k cs _ hcs
    simpa using hcs
  | cons op rest ih =>
    intro k cs h hcs
    simp only [List.foldl_cons]
    refine ih k (CSstep cs op) (fun o ho => h o (by simp [ho])) ?_
    rw [CSstep_absent (h op (by simp))]
    exact hcs

lemma appendGroup_nonempty {m : List (String × List String)} {k e : String}
    (h : ∀ p ∈ m, p.2 ≠ ([] : List String)) :
    ∀ p ∈ appendGroup m k e, p.2 ≠ ([] : List String) := by
  induction m with
  | nil =>
    intro p hp
    simp [appendGroup] at hp
    subst hp
    simp
  | cons q rest ih =>
    obtain ⟨k', v⟩ := q
    intro p hp
    by_cases hk : k' = k
    · simp only [appendGroup, if_pos hk] at hp
      rcases List.mem_cons.mp hp with hp | hp
      · subst hp
        simp
      · exact h p (List.mem_cons_of_mem _ hp)
    · simp only [appendGroup, if_neg hk] at hp
      rcases List.mem_cons.mp hp with hp | hp
      · subst hp
        exact h (k', v) (List.mem_cons_self _ _)
      · exact ih (fun q hq => h q (List.mem_cons_of_mem _ hq)) p hp

lemma CSstep_nonempty {cs : CommentStore} (op : CSOp)
    (h : ∀ p ∈ cs.comments, p.2 ≠ ([] : List String)) :
    ∀ p ∈ (CSstep cs op).comments, p.2 ≠ ([] : List String) := by
  cases op with
  | add v c =>
    cases v with
    | str k' =>
      by_cases hk : strBlank k'
      · simpa [CSstep, CommentStore.add_comment, hk] using h
      · cases c with
        | str cc =>
          by_cases hc : strBlank cc
          · simpa [CSstep, CommentStore.add_comment, hk, hc] using h
          · simp only [CSstep, CommentStore.add_comment, hk, hc,
              Bool.false_eq_true, if_false]
            exact appendGroup_nonempty h
        | int n => simpa [CSstep, CommentStore.add_comment, hk] using h
        | none => simpa [CSstep, CommentStore.add_comment, hk] using h
    | int n => simpa [CSstep, CommentStore.add_comment] using h
    | none => simpa [CSstep, CommentStore.add_comment] using h
  | get v => simpa [CSstep, CommentStore.get_comments] using h
  | all => simpa [CSstep, CommentStore.all_comments] using h

lemma CSfoldl_nonempty (ops : List CSOp) : ∀ cs : CommentStore,
    (∀ p ∈ cs.comments, p.2 ≠ ([] : List String)) →
    ∀ p ∈ (ops.foldl CSstep cs).comments, p.2 ≠ ([] : List String) := by
  induction ops with
  | nil =>
    intro cs h
    simpa using h
  | cons op rest ih =>
    intro cs h
    simp only [List.foldl_cons]
    exact ih (CSstep cs op) (CSstep_nonempty op h)

lemma add_evicts {rw : RecentlyWatched} {s : String} (hs : strBlank s = false)
    (hm : 0 < rw.max_items) :
    (rw.history.length = rw.max_items →
      (rw.add (.str s)).1.history = rw.history.tail ++ [s]) ∧
    (rw.history.length < rw.max_items →
      (rw.add (.str s)).1.history = rw.history ++ [s]) := by
  constructor
  · intro hlen
    simp [RecentlyWatched.add, hs, dequeAppend_full s hm hlen]
  · intro hlen
    simp [RecentlyWatched.add, hs, dequeAppend_not_full s hlen]

/-! ### The claims -/

/-- C1: for every capacity `c > 0` and every sequence of valid items added
in order, no `add` raises, `history()` has length `min n c`, its contents
are exactly the last `min n c` added items in add order, and an `add` on a
full buffer evicts exactly the earliest-held item (one eviction at most:
a non-full buffer keeps everything). -/
theorem recency_buffer_fifo (c : Int) (hc : 0 < c) (items : List String)
    (hv : ∀ s ∈ items, strBlank s = false) :
    ∃ rw₀, RecentlyWatched.new c = .ok rw₀ ∧
      (rw₀.addAll items).2 = .ok () ∧
      (rw₀.addAll items).1.history.length = min items.length c.toNat ∧
      (rw₀.addAll items).1.history = items.drop (items.length - c.toNat) ∧
      ∀ s, strBlank s = false →
        ((rw₀.addAll items).1.history.length = c.toNat →
          ((rw₀.addAll items).1.add (.str s)).1.history
            = (rw₀.addAll items).1.history.tail ++ [s]) ∧
        ((rw₀.addAll items).1.history.length < c.toNat →
          ((rw₀.addAll items).1.add (.str s)).1.history
            = (rw₀.addAll items).1.history ++ [s]) := by
  have hm : 0 < c.toNat := by omega
  have hnew : RecentlyWatched.new c = .ok ⟨c.toNat, []⟩ := by
    unfold RecentlyWatched.new
    rw [if_neg (by omega)]
  have hrun : RecentlyWatched.addAll ⟨c.toNat, []⟩ items
      = (⟨c.toNat, lastN c.toNat items⟩, .ok ()) := by
    simpa using addAll_ok items ⟨c.toNat, []⟩ (by simp) hv
  refine ⟨⟨c.toNat, []⟩, hnew, ?_, ?_, ?_, ?_⟩
  · rw [hrun]
  · rw [hrun]
    exact lastN_length c.toNat items
  · rw [hrun]
    exact rfl
  · intro s hs
    rw [hrun]
    exact add_evicts hs hm

/-- Witness for C1: capacity 5, adding `"Movie1"`..`"Movie6"` (the spec's
scenario). -/
theorem recency_buffer_fifo_witness :
    ∃ rw₀, RecentlyWatched.new 5 = .ok rw₀ ∧
      (rw₀.addAll ["Movie1", "Movie2", "Movie3", "Movie4", "Movie5",
        "Movie6"]).2 = .ok () ∧
      (rw₀.addAll ["Movie1", "Movie2", "Movie3", "Movie4", "Movie5",
        "Movie6"]).1.history.length
        = min (["Movie1", "Movie2", "Movie3", "Movie4", "Movie5",
            "Movie6"] : List String).length (Int.toNat 5) ∧
      (rw₀.addAll ["Movie1", "Movie2", "Movie3", "Movie4", "Movie5",
        "Movie6"]).1.history
        = (["Movie1", "Movie2", "Movie3", "Movie4", "Movie5",
            "Movie6"] : List String).drop
            ((["Movie1", "Movie2", "Movie3", "Movie4", "Movie5",
              "Movie6"] : List String).length - Int.toNat 5) ∧
      ∀ s, strBlank s = false →
        (((rw₀.addAll ["Movie1", "Movie2", "Movie3", "Movie4", "Movie5",
            "Movie6"]).1.history.length = Int.toNat 5 →
          ((rw₀.addAll ["Movie1", "Movie2", "Movie3", "Movie4", "Movie5",
            "Movie6"]).1.add (.str s)).1.history
            = (rw₀.addAll ["Movie1", "Movie2", "Movie3", "Movie4", "Movie5",
              "Movie6"]).1.history.tail ++ [s])) ∧
        (((rw₀.addAll ["Movie1", "Movie2", "Movie3", "Movie4", "Movie5",
            "Movie6"]).1.history.length < Int.toNat 5 →
          ((rw₀.addAll ["Movie1", "Movie2", "Movie3", "Movie4", "Movie5",
            "Movie6"]).1.add (.str s)).1.history
            = (rw₀.addAll ["Movie1", "Movie2", "Movie3", "Movie4", "Movie5",
              "Movie6"]).1.history ++ [s])) :=
  recency_buffer_fifo 5 (by decide)
    ["Movie1", "Movie2", "Movie3", "Movie4", "Movie5", "Movie6"] (by decide)

/-- C2: a buffer constructed with positive capacity satisfies
`len(items) ≤ capacity` and every sequence of operations preserves it; an
insert that would exceed capacity removes only the single oldest element,
keeping the remainder's relative order. -/
theorem recency_buffer_invariant (c : Int) (hc : 0 < c) :
    ∃ rw₀, RecentlyWatched.new c = .ok rw₀ ∧
      rw₀.history.length ≤ rw₀.max_items ∧
      (∀ ops : List RWOp,
        (RWrun rw₀ ops).max_items = rw₀.max_items ∧
        (RWrun rw₀ ops).history.length ≤ rw₀.max_items) ∧
      (∀ (rw : RecentlyWatched) (s : String),
        rw.history.length = rw.max_items → 0 < rw.max_items →
        strBlank s = false →
        (rw.add (.str s)).1.history = rw.history.tail ++ [s]) := by
  refine ⟨⟨c.toNat, []⟩, ?_, by simp,
    fun ops => RWrun_preserves ops _ (by simp),
    fun rw s hlen hm hs => (add_evicts hs hm).1 hlen⟩
  unfold RecentlyWatched.new
  rw [if_neg (by omega)]

/-- Witness for C2: capacity 5. -/
theorem recency_buffer_invariant_witness :
    ∃ rw₀, RecentlyWatched.new 5 = .ok rw₀ ∧
      rw₀.history.length ≤ rw₀.max_items ∧
      (∀ ops : List RWOp,
        (RWrun rw₀ ops).max_items = rw₀.max_items ∧
        (RWrun rw₀ ops).history.length ≤ rw₀.max_items) ∧
      (∀ (rw : RecentlyWatched) (s : String),
        rw.history.length = rw.max_items → 0 < rw.max_items →
        strBlank s = false →
        (rw.add (.str s)).1.history = rw.history.tail ++ [s]) :=
  recency_buffer_invariant 5 (by decide)

/-- C3: construction with non-positive capacity raises `ValueError`;
`add("")` raises `ValueError` and `add(None)` raises `TypeError`, in both
cases leaving the object (hence `history()`) unchanged. -/
theorem recency_buffer_rejections (c : Int) (hc : c ≤ 0)
    (rw : RecentlyWatched) :
    RecentlyWatched.new c
      = .error (.valueError "max_items must be greater than zero.") ∧
    rw.add (.str "")
      = (rw, .error (.valueError "video_title cannot be empty.")) ∧
    rw.add PyVal.none
      = (rw, .error (.typeError "video_title must be a string.")) ∧
    ((rw.add (.str "")).1.get_history).2 = (rw.get_history).2 ∧
    ((rw.add PyVal.none).1.get_history).2 = (rw.get_history).2 := by
  refine ⟨?_, rfl, rfl, rfl, rfl⟩
  unfold RecentlyWatched.new
  rw [if_pos hc]

/-- Witness for C3: capacities `0` and `-1`, a concrete buffer. -/
theorem recency_buffer_rejections_witness :
    ((0 : Int) ≤ 0 ∧ (-1 : Int) ≤ 0) ∧
    RecentlyWatched.new 0
      = .error (.valueError "max_items must be greater than zero.") ∧
    RecentlyWatched.new (-1)
      = .error (.valueError "max_items must be greater than zero.") ∧
    RecentlyWatched.add ⟨5, ["A"]⟩ (.str "")
      = (⟨5, ["A"]⟩, .error (.valueError "video_title cannot be empty.")) ∧
    RecentlyWatched.add ⟨5, ["A"]⟩ PyVal.none
      = (⟨5, ["A"]⟩, .error (.typeError "video_title must be a string.")) :=
  ⟨⟨by decide, by decide⟩,
    (recency_buffer_rejections 0 (by decide) ⟨5, ["A"]⟩).1,
    (recency_buffer_rejections (-1) (by decide) ⟨5, ["A"]⟩).1,
    (recency_buffer_rejections 0 (by decide) ⟨5, ["A"]⟩).2.1,
    (recency_buffer_rejections 0 (by decide) ⟨5, ["A"]⟩).2.2.1⟩

lemma strBlank_empty : strBlank "" = true := rfl

/-- C4: `add_comment` raises `InvalidArgument` (a `ValueError` or
`TypeError`) whenever the key or the entry is the empty string or not a
string, leaving the store unchanged; a valid call appends the entry to the
key's group, creating the group on first use. -/
theorem grouped_store_add_validates (cs : CommentStore) (k e : PyVal) :
    ((k = .str "" ∨ (∀ s : String, k ≠ .str s) ∨ e = .str "" ∨
        (∀ s : String, e ≠ .str s)) →
      ∃ err, cs.add_comment k e = (cs, .error err)) ∧
    (∀ ks es : String, strBlank ks = false → strBlank es = false →
      cs.add_comment (.str ks) (.str es)
        = (⟨appendGroup cs.comments ks es⟩, .ok ()) ∧
      ((⟨appendGroup cs.comments ks es⟩ : CommentStore).get_comments ks).2
        = (cs.get_comments ks).2 ++ [es]) := by
  constructor
  · intro hbad
    rcases hbad with hk | hk | he | he
    · subst hk
      exact ⟨.valueError "video_id cannot be empty.", rfl⟩
    · cases k with
      | str s => exact absurd rfl (hk s)
      | int n => exact ⟨.typeError "video_id must be a string.", rfl⟩
      | none => exact ⟨.typeError "video_id must be a string.", rfl⟩
    · subst he
      cases k with
      | str s =>
        by_cases hks : strBlank s
        · exact ⟨.valueError "video_id cannot be empty.",
            by simp [CommentStore.add_comment, hks]⟩
        · exact ⟨.valueError "comment cannot be empty.",
            by simp [CommentStore.add_comment, hks, strBlank_empty]⟩
      | int n => exact ⟨.typeError "video_id must be a string.", rfl⟩
      | none => exact ⟨.typeError "video_id must be a string.", rfl⟩
    · cases k with
      | str s =>
        by_cases hks : strBlank s
        · exact ⟨.valueError "video_id cannot be empty.",
            by simp [CommentStore.add_comment, hks]⟩
        · cases e with
          | str t => exact absurd rfl (he t)
          | int n => exact ⟨.typeError "comment must be a string.",
              by simp [CommentStore.add_comment, hks]⟩
          | none => exact ⟨.typeError "comment must be a string.",
              by simp [CommentStore.add_comment, hks]⟩
      | int n => exact ⟨.typeError "video_id must be a string.", rfl⟩
      | none => exact ⟨.typeError "video_id must be a string.", rfl⟩
  · intro ks es hks hes
    constructor
    · simp [CommentStore.add_comment, hks, hes]
    · simp [CommentStore.get_comments, lookupGroup_appendGroup_self]

/-- Witness for C4: a non-string key is rejected on the empty store; a
valid call creates the group. -/
theorem grouped_store_add_validates_witness :
    (∃ err, CommentStore.new.add_comment PyVal.none (.str "x")
      = (CommentStore.new, .error err)) ∧
    (CommentStore.new.add_comment (.str "VID1") (.str "Nice!")
      = (⟨[("VID1", ["Nice!"])]⟩, .ok ()) ∧
      ((⟨[("VID1", ["Nice!"])]⟩ : CommentStore).get_comments "VID1").2
        = (CommentStore.new.get_comments "VID1").2 ++ ["Nice!"]) :=
  ⟨(grouped_store_add_validates CommentStore.new PyVal.none (.str "x")).1
      (Or.inr (Or.inl fun s h => PyVal.noConfusion h)),
    (grouped_store_add_validates CommentStore.new (.str "VID1")
      (.str "Nice!")).2 "VID1" "Nice!" (by decide) (by decide)⟩

/-- C5: `get_comments` on a key never used in an `add` returns the empty
list and leaves the store exactly as it was. -/
theorem absent_key_get (ops : List CSOp) (k : String)
    (h : ∀ op ∈ ops, addsKey k op = false) :
    (CSrun ops).get_comments k = (CSrun ops, []) := by
  have habs : lookupGroup (CSrun ops).comments k = Option.none :=
    CSfoldl_absent ops k CommentStore.new h rfl
  unfold CommentStore.get_comments
  rw [habs]
  exact rfl

/-- Witness for C5: a run that adds under `"VID1"` only; `"VID303"` was
never added. -/
theorem absent_key_get_witness :
    (CSrun [CSOp.add (.str "VID1") (.str "A"), CSOp.get "X",
      CSOp.all]).get_comments "VID303"
      = (CSrun [CSOp.add (.str "VID1") (.str "A"), CSOp.get "X",
        CSOp.all], []) :=
  absent_key_get _ "VID303" (by decide)

/-- C6: from the empty store, two entries under one key then one under a
different key give exactly `{k1: [e1, e2], k2: [e3]}` with `k1` iterated
first; the spec's `VID101`/`VID202`/`VID303` scenario holds. -/
theorem grouped_store_scenario (k1 k2 e1 e2 e3 : String) (hk : k1 ≠ k2)
    (h1 : strBlank k1 = false) (h2 : strBlank k2 = false)
    (h3 : strBlank e1 = false) (h4 : strBlank e2 = false)
    (h5 : strBlank e3 = false) :
    ((((CommentStore.new.add_comment (.str k1) (.str e1)).1.add_comment
        (.str k1) (.str e2)).1.add_comment (.str k2)
        (.str e3)).1.all_comments).2
      = [(k1, [e1, e2]), (k2, [e3])] ∧
    ((CSrun [CSOp.add (.str "VID101") (.str "Great!"),
        CSOp.add (.str "VID101") (.str "Waiting"),
        CSOp.add (.str "VID202") (.str "Amazing!")]).get_comments
        "VID101").2 = ["Great!", "Waiting"] ∧
    ((CSrun [CSOp.add (.str "VID101") (.str "Great!"),
        CSOp.add (.str "VID101") (.str "Waiting"),
        CSOp.add (.str "VID202") (.str "Amazing!")]).get_comments
        "VID202").2 = ["Amazing!"] ∧
    ((CSrun [CSOp.add (.str "VID101") (.str "Great!"),
        CSOp.add (.str "VID101") (.str "Waiting"),
        CSOp.add (.str "VID202") (.str "Amazing!")]).get_comments
        "VID303").2 = [] := by
  refine ⟨?_, by decide, by decide, by decide⟩
  simp [CommentStore.add_comment, CommentStore.all_comments,
    CommentStore.new, appendGroup, h1, h2, h3, h4, h5, hk]

/-- Witness for C6: the spec's concrete keys and entries. -/
theorem grouped_store_scenario_witness :
    ((((CommentStore.new.add_comment (.str "VID101")
        (.str "Great!")).1.add_comment (.str "VID101")
        (.str "Waiting")).1.add_comment (.str "VID202")
        (.str "Amazing!")).1.all_comments).2
      = [("VID101", ["Great!", "Waiting"]), ("VID202", ["Amazing!"])] ∧
    ((CSrun [CSOp.add (.str "VID101") (.str "Great!"),
        CSOp.add (.str "VID101") (.str "Waiting"),
        CSOp.add (.str "VID202") (.str "Amazing!")]).get_comments
        "VID101").2 = ["Great!", "Waiting"] ∧
    ((CSrun [CSOp.add (.str "VID101") (.str "Great!"),
        CSOp.add (.str "VID101") (.str "Waiting"),
        CSOp.add (.str "VID202") (.str "Amazing!")]).get_comments
        "VID202").2 = ["Amazing!"] ∧
    ((CSrun [CSOp.add (.str "VID101") (.str "Great!"),
        CSOp.add (.str "VID101") (.str "Waiting"),
        CSOp.add (.str "VID202") (.str "Amazing!")]).get_comments
        "VID303").2 = [] :=
  grouped_store_scenario "VID101" "VID202" "Great!" "Waiting" "Amazing!"
    (by decide) (by decide) (by decide) (by decide) (by decide) (by decide)

/-- C7: in every state reachable from the empty store, every key present
maps to a non-empty group. -/
theorem groups_nonempty (ops : List CSOp) (k : String) (g : List String)
    (h : (k, g) ∈ (CSrun ops).comments) : g ≠ [] := by
  have hall : ∀ p ∈ (CSrun ops).comments, p.2 ≠ ([] : List String) :=
    CSfoldl_nonempty ops CommentStore.new
      (by intro p hp; simp [CommentStore.new] at hp)
  exact hall (k, g) h

/-- Witness for C7: a one-add run holding the group `("A", ["B"])`. -/
theorem groups_nonempty_witness :
    ("A", ["B"]) ∈ (CSrun [CSOp.add (.str "A") (.str "B")]).comments ∧
    (["B"] : List String) ≠ [] :=
  ⟨by decide,
    groups_nonempty [CSOp.add (.str "A") (.str "B")] "A" ["B"] (by decide)⟩

/-- C8: `get_history()` is read-only: it returns the current contents as a
snapshot, leaves the buffer unchanged, and the snapshot is ordered
most-recent-last (a freshly added item is its last element). -/
theorem get_history_read_only (rw : RecentlyWatched)
    (hm : 0 < rw.max_items) :
    rw.get_history = (rw, rw.history) ∧
    ∀ s, strBlank s = false →
      ∃ pre, ((rw.add (.str s)).1.get_history).2 = pre ++ [s] := by
  refine ⟨rfl, fun s hs => ?_⟩
  simp only [RecentlyWatched.add, hs, Bool.false_eq_true, if_false,
    RecentlyWatched.get_history]
  unfold dequeAppend
  split
  · exact ⟨rw.history, rfl⟩
  · rename_i hfull
    refine ⟨rw.history.drop (rw.history.length + 1 - rw.max_items), ?_⟩
    rw [List.drop_append_of_le_length (by omega)]

/-- Witness for C8: a capacity-5 buffer holding `"A"`, then adding `"B"`. -/
theorem get_history_read_only_witness :
    RecentlyWatched.get_history ⟨5, ["A"]⟩ = (⟨5, ["A"]⟩, ["A"]) ∧
    ∃ pre, ((RecentlyWatched.add ⟨5, ["A"]⟩ (.str "B")).1.get_history).2
      = pre ++ ["B"] :=
  ⟨(get_history_read_only ⟨5, ["A"]⟩ (by decide)).1,
    (get_history_read_only ⟨5, ["A"]⟩ (by decide)).2 "B" (by decide)⟩

/-- C9: `Series.play` with a non-`int` or non-positive episode prints the
invalid-episode message, raises nothing, and leaves the object unchanged. -/
theorem series_play_rejects (sr : Series) (ep : PyVal)
    (h : (∀ n : Int, ep ≠ .int n) ∨ ∃ n : Int, ep = .int n ∧ n < 1) :
    sr.play ep
      = (sr, .ok ["Invalid episode number for \x27" ++ sr.title ++ "\x27"]) := by
  cases ep with
  | str s => rfl
  | none => rfl
  | int n =>
    rcases h with h | ⟨m, hm, hlt⟩
    · exact absurd rfl (h n)
    · injection hm with hnm
      subst hnm
      simp [Series.play, hlt]

/-- Witness for C9: episode `0` and episode `None` on a concrete series. -/
theorem series_play_rejects_witness :
    Series.play ⟨201, "Stranger Things", Option.none⟩ (.int 0)
      = (⟨201, "Stranger Things", Option.none⟩,
        .ok ["Invalid episode number for \x27" ++ "Stranger Things"
          ++ "\x27"]) ∧
    Series.play ⟨201, "Stranger Things", Option.none⟩ PyVal.none
      = (⟨201, "Stranger Things", Option.none⟩,
        .ok ["Invalid episode number for \x27" ++ "Stranger Things"
          ++ "\x27"]) :=
  ⟨series_play_rejects ⟨201, "Stranger Things", Option.none⟩ (.int 0)
      (Or.inr ⟨0, rfl, by decide⟩),
    series_play_rejects ⟨201, "Stranger Things", Option.none⟩ PyVal.none
      (Or.inl fun n h => PyVal.noConfusion h)⟩

/-- C10: a string consisting solely of whitespace is rejected by
`RecentlyWatched.add` and by `CommentStore.add_comment` (in either
argument position), each call raising `ValueError` and leaving the
structure unchanged, because validation strips before checking. -/
theorem whitespace_only_rejected (rw : RecentlyWatched) (cs : CommentStore)
    (s : String) (hne : s ≠ "") (hw : strBlank s = true) :
    rw.add (.str s)
      = (rw, .error (.valueError "video_title cannot be empty.")) ∧
    (∀ c : PyVal, cs.add_comment (.str s) c
      = (cs, .error (.valueError "video_id cannot be empty."))) ∧
    (∀ k : String, strBlank k = false → cs.add_comment (.str k) (.str s)
      = (cs, .error (.valueError "comment cannot be empty."))) := by
  refine ⟨?_, fun c => ?_, fun k hk => ?_⟩
  · simp [RecentlyWatched.add, hw]
  · simp [CommentStore.add_comment, hw]
  · simp [CommentStore.add_comment, hw, hk]

/-- Witness for C10: the single-space string `" "`. -/
theorem whitespace_only_rejected_witness :
    ((" " : String) ≠ "" ∧ strBlank " " = true) ∧
    RecentlyWatched.add ⟨5, []⟩ (.str " ")
      = (⟨5, []⟩, .error (.valueError "video_title cannot be empty.")) ∧
    CommentStore.new.add_comment (.str " ") (.str "Nice!")
      = (CommentStore.new, .error (.valueError "video_id cannot be empty.")) ∧
    CommentStore.new.add_comment (.str "VID1") (.str " ")
      = (CommentStore.new,
        .error (.valueError "comment cannot be empty.")) :=
  ⟨⟨by decide, by decide⟩,
    (whitespace_only_rejected ⟨5, []⟩ CommentStore.new " " (by decide)
      (by decide)).1,
    (whitespace_only_rejected ⟨5, []⟩ CommentStore.new " " (by decide)
      (by decide)).2.1 (.str "Nice!"),
    (whitespace_only_rejected ⟨5, []⟩ CommentStore.new " " (by decide)
      (by decide)).2.2 "VID1" (by decide)⟩
